import Mathlib

/-!
Shallow embedding of the query-execution orchestration layer
(`Query` / `QueryService` from
`src/sql/workbench/contrib/dashboard/browser/dashboardEditor.ts`,
second compilation unit of that file: the `queryService` module).

URIs and provider identities are embedded as `String` (the source always
keys its maps by `uri.toString()` / `provider.id`).  JavaScript `Map`s are
embedded as association lists with `Map.set` / `Map.get` / `Map.delete`
semantics.  The asynchronous `execute()` method is split at its single
`await` point into a synchronous phase (`executeSync`) and the
continuation that runs when the provider promise resolves
(`executeResume`).  Event emitter subscriptions are embedded as boolean
liveness flags on a registration record; firing an event on a provider
dispatches to the service handlers exactly when the corresponding
subscription flag is still live.
-/

namespace QS

/-- `ColumnType` enum from the source. -/
inductive ColumnType
  | XML
  | JSON
  | UNKNOWN
deriving DecidableEq, Repr

/-- `IColumn`: a column descriptor. -/
structure IColumn where
  title : String
  type : ColumnType
deriving DecidableEq, Repr

/-- `QueryState` enum from the source. -/
inductive QueryState
  | EXECUTING
  | NOT_EXECUTING
deriving DecidableEq, Repr

/-- `IResultMessage`. -/
structure IResultMessage where
  message : String
  isError : Bool := false
deriving DecidableEq, Repr

/-- `IResultSetSummary`: payload of result-set events. -/
structure IResultSetSummary where
  resultIndex : Nat
  batchIndex : Nat
  rowCount : Nat
  columns : List IColumn
  completed : Bool
deriving DecidableEq, Repr

/-- The materialised `IResultSet` record built in `handleResultSetAvailable`
(the bound `fetch` closure only captures `resultIndex`/`batchIndex`, which
are recoverable from `id`, so it is not stored). -/
structure ResultSet where
  id : String
  columns : List IColumn
  rowCount : Nat
  completed : Bool
deriving DecidableEq, Repr

/-- The payload of `onMessage`: `IResultMessage | ReadonlyArray<IResultMessage>`. -/
inductive MessagePayload
  | single (m : IResultMessage)
  | many (ms : List IResultMessage)
deriving DecidableEq, Repr

/-- The mutable fields of the `Query` class.  `startTimeInternal` and
`endTimeInternal` embed the private `_startTime` / `_endTime` fields; the
public getters are defined below. -/
structure Query where
  associatedFile : String
  state : QueryState := QueryState.NOT_EXECUTING
  messages : List IResultMessage := []
  resultSets : List ResultSet := []
  startTimeInternal : Option Nat := none
  endTimeInternal : Option Nat := none
deriving DecidableEq, Repr

/-- The public `startTime` getter: returns `_startTime` unconditionally. -/
def Query.startTime (q : Query) : Option Nat :=
  q.startTimeInternal

/-- The public `endTime` getter: returns `undefined` while the query is
EXECUTING ("the end time is unreliable until we know the query has been
completed"), otherwise `_endTime`. -/
def Query.endTime (q : Query) : Option Nat :=
  if q.state = QueryState.EXECUTING then none else q.endTimeInternal

/-- `setState`: assigns and fires `onDidStateChange` only when the state
actually changes.  The boolean records whether the event fired. -/
def Query.setState (q : Query) (s : QueryState) : Query × Bool :=
  if s ≠ q.state then ({ q with state := s }, true) else (q, false)

/-- `encodeId`: the composite identity string for a result set. -/
def Query.encodeId (resultId : Nat) (batchId : Nat) : String :=
  toString resultId ++ "_" ++ toString batchId

/-- `handleMessage`: appends one or many messages in order and fires
`onMessage` with exactly the received payload. -/
def Query.handleMessage (q : Query) (e : MessagePayload) : Query × MessagePayload :=
  match e with
  | MessagePayload.single m => ({ q with messages := q.messages ++ [m] }, e)
  | MessagePayload.many ms => ({ q with messages := q.messages ++ ms }, e)

/-- `handleResultSetAvailable`: unconditionally constructs a fresh
`ResultSet` from the summary, pushes it onto `_resultSets` and fires
`onResultSetAvailable` with it. -/
def Query.handleResultSetAvailable (q : Query) (e : IResultSetSummary) :
    Query × ResultSet :=
  let resultSet : ResultSet :=
    { id := Query.encodeId e.resultIndex e.batchIndex
      columns := e.columns
      rowCount := e.rowCount
      completed := e.completed }
  ({ q with resultSets := q.resultSets ++ [resultSet] }, resultSet)

/-- In-place mutation of the first list element carrying `id` (the element
`Array.prototype.find` returns), setting its `rowCount` and `completed`. -/
def updateFirst (l : List ResultSet) (id : String) (rowCount : Nat)
    (completed : Bool) : List ResultSet :=
  match l with
  | [] => []
  | r :: rest =>
    if r.id = id then { r with rowCount := rowCount, completed := completed } :: rest
    else r :: updateFirst rest id rowCount completed

/-- `handleResultSetUpdated`: finds the existing result set by composite
identity.  When no entry matches, `find` yields `undefined` and the
subsequent property assignment throws a `TypeError` (embedded as
`Except.error`), leaving `_resultSets` untouched.  Otherwise the matching
entry is mutated in place and `onResultSetUpdated` fires with the mutated
entry. -/
def Query.handleResultSetUpdated (q : Query) (e : IResultSetSummary) :
    Query × Except String ResultSet :=
  let id := Query.encodeId e.resultIndex e.batchIndex
  match q.resultSets.find? (fun r => r.id = id) with
  | none =>
    (q, Except.error "TypeError: cannot set property rowCount of undefined")
  | some r =>
    ({ q with resultSets := updateFirst q.resultSets id e.rowCount e.completed },
      Except.ok { r with rowCount := e.rowCount, completed := e.completed })

/-- `handleQueryComplete`: forces NOT_EXECUTING and fires `onQueryComplete`. -/
def Query.handleQueryComplete (q : Query) : Query :=
  (q.setState QueryState.NOT_EXECUTING).1

/-- `handleBatchStart`: only batch index 0 writes `_startTime`. -/
def Query.handleBatchStart (q : Query) (index : Nat) (executionStart : Nat) :
    Query :=
  if index = 0 then { q with startTimeInternal := some executionStart } else q

/-- `handleBatchEnd`: continuously overwrites `_endTime`. -/
def Query.handleBatchEnd (q : Query) (executionEnd : Nat) : Query :=
  { q with endTimeInternal := some executionEnd }

/-- A scalar option value: `string | number | boolean`. -/
inductive OptionValue
  | str (s : String)
  | num (n : Int)
  | bool (b : Bool)
deriving DecidableEq, Repr

/-- RPC-style calls a `Query` can issue to its resolved provider, tagged
with the connection id (`associatedFile.toString()`). -/
inductive ProviderCall
  | runQuery (connectionId : String)
  | cancelQuery (connectionId : String)
  | setOptions (connectionId : String) (options : List (String × OptionValue))
deriving DecidableEq, Repr

/-- `Query.setExecutionOptions`: the source method's body is empty — it
mutates nothing and issues no provider call. -/
def Query.setExecutionOptions (q : Query) (options : List (String × OptionValue)) :
    Query × List ProviderCall :=
  (q, [])

/-- JavaScript `Map.set`: replaces the value in place when the key exists,
otherwise appends. -/
def mapSet {α : Type} (m : List (String × α)) (k : String) (v : α) :
    List (String × α) :=
  match m with
  | [] => [(k, v)]
  | (k1, v1) :: rest =>
    if k1 = k then (k, v) :: rest else (k1, v1) :: mapSet rest k v

/-- JavaScript `Map.get`. -/
def mapGet {α : Type} (m : List (String × α)) (k : String) : Option α :=
  match m with
  | [] => none
  | (k1, v1) :: rest => if k1 = k then some v1 else mapGet rest k

/-- JavaScript `Map.delete`. -/
def mapDelete {α : Type} (m : List (String × α)) (k : String) :
    List (String × α) :=
  m.filter (fun kv => kv.1 ≠ k)

/-- One `registerProvider` call's footprint: the identity it registered
under (`provider.id`), a token identifying this particular registration
(its `combinedDisposable`), and the liveness of each of the six event
subscriptions taken out on the provider's emitters. -/
structure Registration where
  regId : Nat
  providerId : String
  subMessage : Bool
  subResultSetAvailable : Bool
  subResultSetUpdated : Bool
  subBatchStart : Bool
  subBatchComplete : Bool
  subQueryComplete : Bool
deriving DecidableEq, Repr

/-- All six subscriptions of a registration are still live. -/
def Registration.allSubscribed (r : Registration) : Prop :=
  r.subMessage = true ∧ r.subResultSetAvailable = true ∧
  r.subResultSetUpdated = true ∧ r.subBatchStart = true ∧
  r.subBatchComplete = true ∧ r.subQueryComplete = true

instance (r : Registration) : Decidable r.allSubscribed := by
  unfold Registration.allSubscribed; infer_instance

/-- All six subscriptions of a registration have been revoked. -/
def Registration.allUnsubscribed (r : Registration) : Prop :=
  r.subMessage = false ∧ r.subResultSetAvailable = false ∧
  r.subResultSetUpdated = false ∧ r.subBatchStart = false ∧
  r.subBatchComplete = false ∧ r.subQueryComplete = false

instance (r : Registration) : Decidable r.allUnsubscribed := by
  unfold Registration.allUnsubscribed; infer_instance

/-- The registration record a `registerProvider` call creates: all six
event subscriptions live. -/
def Registration.fresh (regId : Nat) (providerId : String) : Registration :=
  { regId := regId
    providerId := providerId
    subMessage := true
    subResultSetAvailable := true
    subResultSetUpdated := true
    subBatchStart := true
    subBatchComplete := true
    subQueryComplete := true }

/-- Disposing a registration's combined disposable revokes its six event
subscriptions (the token and identity are untouched). -/
def Registration.revoke (r : Registration) : Registration :=
  { r with
      subMessage := false
      subResultSetAvailable := false
      subResultSetUpdated := false
      subBatchStart := false
      subBatchComplete := false
      subQueryComplete := false }

/-- The `QueryService` state: `queryProviders` maps `provider.id` to the
current registration's token, `queries` maps `uri.toString()` to the
`Query` instance.  `registrations` carries every registration ever made
(disposed or not) so that stale disposables and still-live subscriptions
can be talked about; `nextRegId` supplies fresh tokens. -/
structure QueryService where
  registrations : List Registration := []
  queryProviders : List (String × Nat) := []
  queries : List (String × Query) := []
  nextRegId : Nat := 0
deriving DecidableEq, Repr

/-- Every registration token already handed out is below `nextRegId`
(always true of states reachable from the empty service). -/
def QueryService.freshIds (s : QueryService) : Prop :=
  ∀ r ∈ s.registrations, r.regId < s.nextRegId

instance (s : QueryService) : Decidable s.freshIds := by
  unfold QueryService.freshIds; infer_instance

/-- `registerProvider`: subscribes to the provider's six event streams,
builds the combined disposable, and stores the stub under `provider.id`
(`Map.set`, so an existing entry under the same identity is replaced —
without its subscriptions being disposed).  Returns the new state and the
registration token (the disposable handle). -/
def QueryService.registerProvider (s : QueryService) (providerId : String) :
    QueryService × Nat :=
  let reg : Registration := Registration.fresh s.nextRegId providerId
  ({ s with
      registrations := s.registrations ++ [reg]
      queryProviders := mapSet s.queryProviders providerId reg.regId
      nextRegId := s.nextRegId + 1 },
    reg.regId)

/-- Invoking the disposable returned by `registerProvider`: revokes that
registration's six subscriptions and runs
`toDisposable(() => this.queryProviders.delete(provider.id))`, i.e. the
registry deletion is keyed by the provider identity the handle was created
for, whatever registration currently occupies that entry. -/
def QueryService.disposeRegistration (s : QueryService) (regId : Nat) :
    QueryService :=
  match s.registrations.find? (fun r => r.regId = regId) with
  | none => s
  | some reg =>
    { s with
        registrations := s.registrations.map (fun r =>
          if r.regId = regId then Registration.revoke r else r)
        queryProviders := mapDelete s.queryProviders reg.providerId }

/-- `createOrGetQuery`: returns the existing `Query` for the URI when one
is stored, otherwise constructs and stores a fresh one.  The source
implementation declares no `forceNew` parameter (the `IQueryService`
interface does), so a `forceNew` argument passed by a caller is ignored. -/
def QueryService.createOrGetQuery (s : QueryService) (associatedURI : String)
    (forceNew : Bool) : QueryService × Query :=
  match mapGet s.queries associatedURI with
  | some existing => (s, existing)
  | none =>
    let query : Query := { associatedFile := associatedURI }
    ({ s with queries := mapSet s.queries associatedURI query }, query)

/-- `findQuery`: resolves the query owning a correlation key, throwing when
none is registered. -/
def QueryService.findQuery (s : QueryService) (connectionId : String) :
    Except String Query :=
  match mapGet s.queries connectionId with
  | some q => Except.ok q
  | none =>
    Except.error ("Could not find query with connection " ++ connectionId)

/-- `withProvider`: asks the connection directory for the provider identity
of a file, then looks the identity up in the registry; throws when the
directory returns nothing or no provider is registered under the identity.
Returns the registration token of the resolved provider stub. -/
def QueryService.withProvider (s : QueryService)
    (directory : String → Option String) (file : String) :
    Except String Nat :=
  match directory file with
  | none => Except.error "Query provider could not be found: undefined"
  | some p =>
    match mapGet s.queryProviders p with
    | none => Except.error ("Query provider could not be found: " ++ p)
    | some regId => Except.ok regId

/-- `QueryService.setExecutionOptions` helper: resolves the provider for
the file and forwards the option map to it (this helper exists in the
source but `Query.setExecutionOptions` never calls it). -/
def QueryService.setExecutionOptionsHelper (s : QueryService)
    (directory : String → Option String) (file : String)
    (options : List (String × OptionValue)) : Except String ProviderCall :=
  (s.withProvider directory file).map (fun _ => ProviderCall.setOptions file options)

/-- Outcome of the synchronous portion of `Query.execute()` — everything
that runs before control returns to the caller at the single `await`. -/
inductive ExecuteSyncResult
  | alreadyExecuting
  | noProvider (message : String)
  | pending (call : ProviderCall)
deriving DecidableEq, Repr

/-- The synchronous portion of `async execute()`: while EXECUTING it throws
"Query already executing" before touching any field; otherwise it clears
`_resultSets`, `_messages`, `_startTime`, `_endTime` and evaluates
`this.queryService.executeQuery(this.associatedFile)` — which resolves the
provider synchronously (throwing "no provider" after the fields were
already cleared) and issues `runQuery`.  The statements after the `await`
are NOT part of this portion. -/
def Query.executeSync (s : QueryService) (directory : String → Option String)
    (q : Query) : Query × ExecuteSyncResult :=
  if q.state = QueryState.EXECUTING then
    (q, ExecuteSyncResult.alreadyExecuting)
  else
    let cleared : Query :=
      { q with
          resultSets := []
          messages := []
          startTimeInternal := none
          endTimeInternal := none }
    match s.withProvider directory q.associatedFile with
    | Except.error msg => (cleared, ExecuteSyncResult.noProvider msg)
    | Except.ok _ =>
      (cleared, ExecuteSyncResult.pending (ProviderCall.runQuery q.associatedFile))

/-- The continuation of `execute()` that runs once the awaited
`runQuery` promise resolves: records the provisional wall-clock start time
(`Date.now()`, passed in as `now`) and transitions to EXECUTING. -/
def Query.executeResume (q : Query) (now : Nat) : Query :=
  (Query.setState { q with startTimeInternal := some now } QueryState.EXECUTING).1

/-- Looks up a registration by its token. -/
def QueryService.findRegistration (s : QueryService) (regId : Nat) :
    Option Registration :=
  s.registrations.find? (fun r => r.regId = regId)

/-- `onMessage` dispatch handler: routes the event by correlation key to
the owning query and lets it handle the payload, storing the mutated
query back.  An unknown key propagates `findQuery`'s error. -/
def QueryService.onMessage (s : QueryService) (connectionId : String)
    (msgs : MessagePayload) : Except String QueryService :=
  (s.findQuery connectionId).map (fun q =>
    { s with
        queries := mapSet s.queries connectionId (q.handleMessage msgs).1 })

/-- A message emission by the provider object behind registration `regId`:
each still-live `onMessage` subscription invokes the service's handler; a
revoked subscription means the emission reaches no handler and the service
is untouched. -/
def QueryService.emitMessageFrom (s : QueryService) (regId : Nat)
    (connectionId : String) (msgs : MessagePayload) :
    Except String QueryService :=
  match s.findRegistration regId with
  | some reg =>
    if reg.subMessage then s.onMessage connectionId msgs else Except.ok s
  | none => Except.ok s

/-! ## Helper lemmas about the map and list operations -/

theorem mapGet_mapSet_self {α : Type} (m : List (String × α)) (k : String)
    (v : α) : mapGet (mapSet m k v) k = some v := by
  induction m with
  | nil => simp [mapSet, mapGet]
  | cons hd tl ih =>
    by_cases h : hd.1 = k
    · simp [mapSet, mapGet, h]
    · simp [mapSet, mapGet, h, ih]

theorem mapGet_mapDelete_self {α : Type} (m : List (String × α)) (k : String) :
    mapGet (mapDelete m k) k = none := by
  induction m with
  | nil => simp [mapDelete, mapGet]
  | cons hd tl ih =>
    by_cases h : hd.1 = k
    · simpa [mapDelete, h] using ih
    · simpa [mapDelete, mapGet, h] using ih

theorem find_skip {α : Type} (l l2 : List α) (p : α → Bool)
    (h : ∀ x ∈ l, p x = false) : (l ++ l2).find? p = l2.find? p := by
  induction l with
  | nil => rfl
  | cons a t ih =>
    have ha : p a = false := h a (List.mem_cons_self a t)
    simp only [List.cons_append, List.find?, ha]
    exact ih (fun x hx => h x (List.mem_cons_of_mem a hx))

theorem updateFirst_length (l : List ResultSet) (id : String) (rc : Nat)
    (c : Bool) : (updateFirst l id rc c).length = l.length := by
  induction l with
  | nil => rfl
  | cons r t ih =>
    by_cases h : r.id = id
    · simp [updateFirst, h]
    · simp [updateFirst, h, ih]

theorem updateFirst_map_id (l : List ResultSet) (id : String) (rc : Nat)
    (c : Bool) : (updateFirst l id rc c).map ResultSet.id = l.map ResultSet.id := by
  induction l with
  | nil => rfl
  | cons r t ih =>
    by_cases h : r.id = id
    · simp [updateFirst, h]
    · simp [updateFirst, h, ih]

theorem updateFirst_skip (l l2 : List ResultSet) (id : String) (rc : Nat)
    (c : Bool) (h : ∀ r ∈ l, r.id ≠ id) :
    updateFirst (l ++ l2) id rc c = l ++ updateFirst l2 id rc c := by
  induction l with
  | nil => rfl
  | cons r t ih =>
    have hr : r.id ≠ id := h r (List.mem_cons_self r t)
    simp only [List.cons_append, updateFirst, if_neg hr, List.append_eq]
    rw [ih (fun x hx => h x (List.mem_cons_of_mem r hx))]

/-! ## Concrete fixtures used by counterexamples and witnesses -/

/-- A service with one provider registered under identity "p" (token 0). -/
def svcP : QueryService := (QueryService.registerProvider {} "p").1

/-- A connection directory mapping every document to provider "p". -/
def dirP : String → Option String := fun _ => some "p"

/-- A fresh, idle query for document "u". -/
def qU : Query := { associatedFile := "u" }

/-- An idle query for document "u" carrying state from a past execution. -/
def qDirty : Query :=
  { associatedFile := "u"
    messages := [{ message := "old" }]
    resultSets := [{ id := "0_0", columns := [], rowCount := 1, completed := false }]
    startTimeInternal := some 1
    endTimeInternal := some 2 }

/-- An executing query for document "u" with accumulated state. -/
def qExec : Query :=
  { associatedFile := "u"
    state := QueryState.EXECUTING
    messages := [{ message := "m" }]
    resultSets := [{ id := "0_0", columns := [], rowCount := 3, completed := false }] }

/-! ## Claims -/

/-- C2, counterexample: in state NOT_EXECUTING, with a provider resolved and
the `runQuery` call issued, the synchronous portion of `execute()` leaves
`state` at NOT_EXECUTING — the transition to EXECUTING happens only in the
continuation after the awaited provider promise resolves, so the claim
that `state == EXECUTING` holds after the synchronous portion (before the
provider response resolves) is false. -/
theorem c2_sync_state_counterexample :
    (Query.executeSync svcP dirP qU).2
        = ExecuteSyncResult.pending (ProviderCall.runQuery "u") ∧
      (Query.executeSync svcP dirP qU).1.state = QueryState.NOT_EXECUTING ∧
      (Query.executeSync svcP dirP qU).1.state ≠ QueryState.EXECUTING := by
  refine ⟨rfl, rfl, ?_⟩
  decide

/-- C2, amended: for a query in state NOT_EXECUTING whose provider
resolves, the synchronous portion of `execute()` clears `messages`,
`resultSets`, `startTime` and `endTime` and issues the `runQuery` call, but
leaves `state` at NOT_EXECUTING; the provisional wall-clock start time is
recorded and the state transitions to EXECUTING only when the awaited
provider response resolves (`executeResume`). -/
theorem c2_execute_phases (s : QueryService) (dir : String → Option String)
    (q : Query) (now : Nat) (rid : Nat)
    (h1 : q.state = QueryState.NOT_EXECUTING)
    (h2 : s.withProvider dir q.associatedFile = Except.ok rid) :
    (Query.executeSync s dir q).1.messages = [] ∧
      (Query.executeSync s dir q).1.resultSets = [] ∧
      (Query.executeSync s dir q).1.startTimeInternal = none ∧
      (Query.executeSync s dir q).1.endTimeInternal = none ∧
      (Query.executeSync s dir q).1.state = QueryState.NOT_EXECUTING ∧
      (Query.executeSync s dir q).2
        = ExecuteSyncResult.pending (ProviderCall.runQuery q.associatedFile) ∧
      (Query.executeResume (Query.executeSync s dir q).1 now).state
        = QueryState.EXECUTING ∧
      (Query.executeResume (Query.executeSync s dir q).1 now).startTime
        = some now := by
  simp [Query.executeSync, h1, h2, Query.executeResume, Query.setState,
    Query.startTime]

/-- Witness for `c2_execute_phases` at the concrete fixture. -/
theorem c2_execute_phases_witness :
    (Query.executeSync svcP dirP qU).1.messages = [] ∧
      (Query.executeSync svcP dirP qU).1.resultSets = [] ∧
      (Query.executeSync svcP dirP qU).1.startTimeInternal = none ∧
      (Query.executeSync svcP dirP qU).1.endTimeInternal = none ∧
      (Query.executeSync svcP dirP qU).1.state = QueryState.NOT_EXECUTING ∧
      (Query.executeSync svcP dirP qU).2
        = ExecuteSyncResult.pending (ProviderCall.runQuery "u") ∧
      (Query.executeResume (Query.executeSync svcP dirP qU).1 5).state
        = QueryState.EXECUTING ∧
      (Query.executeResume (Query.executeSync svcP dirP qU).1 5).startTime
        = some 5 :=
  c2_execute_phases svcP dirP qU 5 0 rfl rfl

/-- C3: calling `execute()` while EXECUTING throws "Query already
executing" before any mutation: the query is returned completely
unchanged (state still EXECUTING, `messages` and `resultSets` untouched)
and no provider call is issued. -/
theorem c3_execute_while_executing_rejects (s : QueryService)
    (dir : String → Option String) (q : Query)
    (h : q.state = QueryState.EXECUTING) :
    Query.executeSync s dir q = (q, ExecuteSyncResult.alreadyExecuting) := by
  simp [Query.executeSync, h]

/-- Witness for `c3_execute_while_executing_rejects` on an executing query
with accumulated messages and result sets. -/
theorem c3_execute_while_executing_rejects_witness :
    Query.executeSync svcP dirP qExec = (qExec, ExecuteSyncResult.alreadyExecuting) :=
  c3_execute_while_executing_rejects svcP dirP qExec rfl

/-- C4, counterexample: with no provider registered, `execute()` on an
idle query does reject with the "no provider" error, but only after the
fields were cleared: `messages` (nonempty before the call) reads back
empty, so "no state mutation" is false. -/
theorem c4_no_provider_counterexample :
    (Query.executeSync ({} : QueryService) (fun _ => none) qDirty).2
        = ExecuteSyncResult.noProvider "Query provider could not be found: undefined" ∧
      (Query.executeSync ({} : QueryService) (fun _ => none) qDirty).1.messages = [] ∧
      qDirty.messages ≠ [] := by
  refine ⟨rfl, rfl, ?_⟩
  decide

/-- C4, amended: for an idle query whose provider resolution fails,
`execute()` rejects with the "no provider" error, but `messages`,
`resultSets`, `startTime` and `endTime` have already been cleared by that
point; only `state` is unchanged (still NOT_EXECUTING). -/
theorem c4_no_provider_rejects_after_clearing (s : QueryService)
    (dir : String → Option String) (q : Query) (msg : String)
    (h1 : q.state = QueryState.NOT_EXECUTING)
    (h2 : s.withProvider dir q.associatedFile = Except.error msg) :
    Query.executeSync s dir q
        = ({ q with
              resultSets := []
              messages := []
              startTimeInternal := none
              endTimeInternal := none },
            ExecuteSyncResult.noProvider msg) ∧
      (Query.executeSync s dir q).1.state = q.state := by
  simp [Query.executeSync, h1, h2]

/-- Witness for `c4_no_provider_rejects_after_clearing` at the concrete
fixture (empty registry, directory with no mapping). -/
theorem c4_no_provider_rejects_after_clearing_witness :
    Query.executeSync ({} : QueryService) (fun _ => none) qDirty
        = ({ qDirty with
              resultSets := []
              messages := []
              startTimeInternal := none
              endTimeInternal := none },
            ExecuteSyncResult.noProvider "Query provider could not be found: undefined") ∧
      (Query.executeSync ({} : QueryService) (fun _ => none) qDirty).1.state
        = qDirty.state :=
  c4_no_provider_rejects_after_clearing ({} : QueryService) (fun _ => none)
    qDirty "Query provider could not be found: undefined" rfl rfl

/-- An idle query already holding a result set with composite identity
`encodeId 0 0`. -/
def qWithRS : Query :=
  { associatedFile := "u"
    resultSets := [{ id := Query.encodeId 0 0, columns := [], rowCount := 5,
                     completed := false }] }

/-- C5, counterexample: two result-set-available events carrying the same
composite identity (0, 0) produce two entries in `resultSets` with equal
identities — the second event appends a duplicate instead of mutating the
existing entry, so per-execution identity uniqueness fails. -/
theorem c5_duplicate_identity_counterexample :
    (((qU.handleResultSetAvailable
            { resultIndex := 0, batchIndex := 0, rowCount := 5, columns := [],
              completed := false }).1.handleResultSetAvailable
          { resultIndex := 0, batchIndex := 0, rowCount := 8, columns := [],
            completed := true }).1.resultSets.map ResultSet.id)
        = [Query.encodeId 0 0, Query.encodeId 0 0] ∧
      (((qU.handleResultSetAvailable
            { resultIndex := 0, batchIndex := 0, rowCount := 5, columns := [],
              completed := false }).1.handleResultSetAvailable
          { resultIndex := 0, batchIndex := 0, rowCount := 8, columns := [],
            completed := true }).1.resultSets.length) ≠ 1 := by
  refine ⟨rfl, by decide⟩

/-- C5, amended: a repeated result-set-updated event with an identity
already present mutates the existing entry (count and identities
preserved, no append), but `handleResultSetAvailable` always appends —
even when the event's identity is already present — so result-set
identity uniqueness is not enforced for repeated available events. -/
theorem c5_updated_mutates_but_available_appends (q : Query)
    (e : IResultSetSummary)
    (h : (q.resultSets.find?
        (fun r => r.id = Query.encodeId e.resultIndex e.batchIndex)).isSome
        = true) :
    (q.handleResultSetUpdated e).1.resultSets.length = q.resultSets.length ∧
      (q.handleResultSetUpdated e).1.resultSets.map ResultSet.id
        = q.resultSets.map ResultSet.id ∧
      (q.handleResultSetAvailable e).1.resultSets.length
        = q.resultSets.length + 1 := by
  obtain ⟨r, hr⟩ := Option.isSome_iff_exists.mp h
  refine ⟨?_, ?_, ?_⟩
  · simp [Query.handleResultSetUpdated, hr, updateFirst_length]
  · simp [Query.handleResultSetUpdated, hr, updateFirst_map_id]
  · simp [Query.handleResultSetAvailable]

/-- Witness for `c5_updated_mutates_but_available_appends` on a query
already holding the identity (0, 0). -/
theorem c5_updated_mutates_but_available_appends_witness :
    (qWithRS.handleResultSetUpdated
          { resultIndex := 0, batchIndex := 0, rowCount := 10, columns := [],
            completed := true }).1.resultSets.length
        = qWithRS.resultSets.length ∧
      (qWithRS.handleResultSetUpdated
          { resultIndex := 0, batchIndex := 0, rowCount := 10, columns := [],
            completed := true }).1.resultSets.map ResultSet.id
        = qWithRS.resultSets.map ResultSet.id ∧
      (qWithRS.handleResultSetAvailable
          { resultIndex := 0, batchIndex := 0, rowCount := 10, columns := [],
            completed := true }).1.resultSets.length
        = qWithRS.resultSets.length + 1 :=
  c5_updated_mutates_but_available_appends qWithRS
    { resultIndex := 0, batchIndex := 0, rowCount := 10, columns := [],
      completed := true } (by rfl)

/-- C6: the source body of `Query.setExecutionOptions` is empty, so for
every query and every scalar-valued option map the call mutates nothing
and forwards nothing to any provider — contradicting the claimed
forwarding through the orchestrator's `setExecutionOptions` helper. -/
theorem c6_setExecutionOptions_is_noop (q : Query)
    (options : List (String × OptionValue)) :
    Query.setExecutionOptions q options = (q, []) :=
  rfl

theorem find_none_forall {l : List ResultSet} {id : String}
    (h : l.find? (fun r => r.id = id) = none) :
    ∀ r ∈ l, (decide (r.id = id)) = false := by
  intro r hr
  have := List.find?_eq_none.mp h r hr
  simpa using this

theorem available_then_updated (q : Query) (e e2 : IResultSetSummary)
    (hnone : q.resultSets.find?
        (fun r => r.id = Query.encodeId e.resultIndex e.batchIndex) = none)
    (hri : e2.resultIndex = e.resultIndex)
    (hbi : e2.batchIndex = e.batchIndex) :
    (q.handleResultSetAvailable e).1.handleResultSetUpdated e2
      = ({ q with
            resultSets := q.resultSets
              ++ [{ id := Query.encodeId e.resultIndex e.batchIndex
                    columns := e.columns
                    rowCount := e2.rowCount
                    completed := e2.completed }] },
          Except.ok
            { id := Query.encodeId e.resultIndex e.batchIndex
              columns := e.columns
              rowCount := e2.rowCount
              completed := e2.completed }) := by
  have hall := find_none_forall hnone
  have hne : ∀ r ∈ q.resultSets,
      r.id ≠ Query.encodeId e.resultIndex e.batchIndex := by
    intro r hr
    simpa using hall r hr
  unfold Query.handleResultSetAvailable Query.handleResultSetUpdated
  simp only [hri, hbi]
  rw [find_skip _ _ _ hall]
  simp only [List.find?, decide_True, decide_eq_true_eq]
  rw [updateFirst_skip _ _ _ _ _ hne]
  simp [updateFirst]

/-- C7: dispatching a result-set-updated event whose identity matches no
entry raises an error (the `undefined` dereference) and leaves
`resultSets` untouched; when the identity matches, the matching entry is
mutated in place — identities and count preserved, no appended entry —
and the notification carries the mutated entry, so available-then-updated
with the same identity yields exactly one added ResultSet bearing the
updated `rowCount` and `completed`. -/
theorem c7_result_set_updated_behavior (q qM : Query)
    (e e2 eM : IResultSetSummary) (r : ResultSet)
    (hnone : q.resultSets.find?
        (fun x => x.id = Query.encodeId e.resultIndex e.batchIndex) = none)
    (hfound : qM.resultSets.find?
        (fun x => x.id = Query.encodeId eM.resultIndex eM.batchIndex) = some r)
    (hri : e2.resultIndex = e.resultIndex)
    (hbi : e2.batchIndex = e.batchIndex) :
    (q.handleResultSetUpdated e).1 = q ∧
      (q.handleResultSetUpdated e).2
        = Except.error "TypeError: cannot set property rowCount of undefined" ∧
      (qM.handleResultSetUpdated eM).1.resultSets.map ResultSet.id
        = qM.resultSets.map ResultSet.id ∧
      (qM.handleResultSetUpdated eM).2
        = Except.ok { r with rowCount := eM.rowCount, completed := eM.completed } ∧
      ((q.handleResultSetAvailable e).1.handleResultSetUpdated e2).1.resultSets
        = q.resultSets
            ++ [{ id := Query.encodeId e.resultIndex e.batchIndex
                  columns := e.columns
                  rowCount := e2.rowCount
                  completed := e2.completed }] ∧
      ((q.handleResultSetAvailable e).1.handleResultSetUpdated e2).2
        = Except.ok
            { id := Query.encodeId e.resultIndex e.batchIndex
              columns := e.columns
              rowCount := e2.rowCount
              completed := e2.completed } := by
  have hcomp := available_then_updated q e e2 hnone hri hbi
  refine ⟨?_, ?_, ?_, ?_, ?_, ?_⟩
  · simp [Query.handleResultSetUpdated, hnone]
  · simp [Query.handleResultSetUpdated, hnone]
  · simp [Query.handleResultSetUpdated, hfound, updateFirst_map_id]
  · simp [Query.handleResultSetUpdated, hfound]
  · rw [hcomp]
  · rw [hcomp]

/-- Witness for `c7_result_set_updated_behavior`: the miss is exercised on
a fresh query, the hit on a query holding identity (0, 0). -/
theorem c7_result_set_updated_behavior_witness :
    (qU.handleResultSetUpdated
          { resultIndex := 1, batchIndex := 0, rowCount := 4, columns := [],
            completed := false }).1 = qU ∧
      (qU.handleResultSetUpdated
          { resultIndex := 1, batchIndex := 0, rowCount := 4, columns := [],
            completed := false }).2
        = Except.error "TypeError: cannot set property rowCount of undefined" ∧
      (qWithRS.handleResultSetUpdated
          { resultIndex := 0, batchIndex := 0, rowCount := 10, columns := [],
            completed := true }).1.resultSets.map ResultSet.id
        = qWithRS.resultSets.map ResultSet.id ∧
      (qWithRS.handleResultSetUpdated
          { resultIndex := 0, batchIndex := 0, rowCount := 10, columns := [],
            completed := true }).2
        = Except.ok
            { id := Query.encodeId 0 0, columns := [], rowCount := 10,
              completed := true } ∧
      ((qU.handleResultSetAvailable
            { resultIndex := 1, batchIndex := 0, rowCount := 4, columns := [],
              completed := false }).1.handleResultSetUpdated
          { resultIndex := 1, batchIndex := 0, rowCount := 9, columns := [],
            completed := true }).1.resultSets
        = qU.resultSets
            ++ [{ id := Query.encodeId 1 0, columns := [], rowCount := 9,
                  completed := true }] ∧
      ((qU.handleResultSetAvailable
            { resultIndex := 1, batchIndex := 0, rowCount := 4, columns := [],
              completed := false }).1.handleResultSetUpdated
          { resultIndex := 1, batchIndex := 0, rowCount := 9, columns := [],
            completed := true }).2
        = Except.ok
            { id := Query.encodeId 1 0, columns := [], rowCount := 9,
              completed := true } :=
  c7_result_set_updated_behavior qU qWithRS
    { resultIndex := 1, batchIndex := 0, rowCount := 4, columns := [],
      completed := false }
    { resultIndex := 1, batchIndex := 0, rowCount := 9, columns := [],
      completed := true }
    { resultIndex := 0, batchIndex := 0, rowCount := 10, columns := [],
      completed := true }
    { id := Query.encodeId 0 0, columns := [], rowCount := 5,
      completed := false }
    (by rfl) (by rfl) rfl rfl

/-- C8: only a batch-start event with batch index 0 writes `startTime`
(a later batch index leaves it untouched), every batch-end event
overwrites the internal end time (last writer wins), and the `endTime`
getter reads back unset while the query is EXECUTING even though an
internal end-time value has been recorded. -/
theorem c8_batch_timing (q : Query) (i t1 t2 t3 t4 v : Nat)
    (hi : i ≠ 0) (hex : q.state = QueryState.EXECUTING) :
    ((q.handleBatchStart 0 t1).handleBatchStart i t2).startTime = some t1 ∧
      ((q.handleBatchEnd t3).handleBatchEnd t4).endTimeInternal = some t4 ∧
      Query.endTime { q with endTimeInternal := some v } = none := by
  refine ⟨?_, rfl, ?_⟩
  · simp [Query.handleBatchStart, hi, Query.startTime]
  · simp [Query.endTime, hex]

/-- Witness for `c8_batch_timing` on an executing query, replaying the
spec's example sequence (start 100 at index 0, 200 at index 1; end 50 then
75). -/
theorem c8_batch_timing_witness :
    ((qExec.handleBatchStart 0 100).handleBatchStart 1 200).startTime = some 100 ∧
      ((qExec.handleBatchEnd 50).handleBatchEnd 75).endTimeInternal = some 75 ∧
      Query.endTime { qExec with endTimeInternal := some 75 } = none :=
  c8_batch_timing qExec 1 100 200 50 75 75 (by decide) rfl

/-- A service already holding a query (with accumulated state) for
document "u". -/
def svcQ : QueryService := { queries := [("u", qDirty)] }

/-- C9: `createOrGetQuery` with `forceNew` set still returns the stored
query unchanged — the implementation declares no `forceNew` parameter, so
the argument the interface documents is silently ignored and no fresh
Query is created. -/
theorem c9_forceNew_ignored :
    QueryService.createOrGetQuery svcQ "u" true = (svcQ, qDirty) :=
  rfl

theorem reg2_registrations (s : QueryService) (p : String) :
    ((s.registerProvider p).1.registerProvider p).1.registrations
      = s.registrations
          ++ [Registration.fresh s.nextRegId p,
              Registration.fresh (s.nextRegId + 1) p] := by
  simp [QueryService.registerProvider]

theorem reg2_providers (s : QueryService) (p : String) :
    ((s.registerProvider p).1.registerProvider p).1.queryProviders
      = mapSet (mapSet s.queryProviders p s.nextRegId) p (s.nextRegId + 1) := by
  simp [QueryService.registerProvider, Registration.fresh]

theorem fresh_skip (s : QueryService) (m : Nat) (h : s.freshIds)
    (hm : s.nextRegId ≤ m) :
    ∀ x ∈ s.registrations, (decide (x.regId = m)) = false := by
  intro x hx
  exact decide_eq_false_iff_not.mpr (Nat.ne_of_lt (Nat.lt_of_lt_of_le (h x hx) hm))

theorem reg2_find (s : QueryService) (p : String) (h : s.freshIds) :
    ((s.registerProvider p).1.registerProvider p).1.registrations.find?
        (fun r => r.regId = s.nextRegId)
      = some (Registration.fresh s.nextRegId p) := by
  rw [reg2_registrations]
  rw [find_skip _ _ _ (fresh_skip s s.nextRegId h (Nat.le_refl _))]
  simp [List.find?, Registration.fresh]

/-- C1, counterexample: register provider identity "p" (token 0), create a
query for "u", register a second provider under the same identity "p"
(token 1).  The first registration's six event subscriptions are all still
live, and a message emission by the old provider is still dispatched and
handled: the query for "u" receives the message.  So re-registration
neither revokes the old subscriptions nor silences the old provider. -/
theorem c1_reregister_counterexample :
    ((svcP.createOrGetQuery "u" false).1.registerProvider "p").1.findRegistration 0
        = some (Registration.fresh 0 "p") ∧
      (((svcP.createOrGetQuery "u" false).1.registerProvider "p").1.emitMessageFrom
            0 "u" (MessagePayload.single { message := "m" })).map
          (fun s4 => (mapGet s4.queries "u").map Query.messages)
        = Except.ok (some [{ message := "m" }]) := by
  exact ⟨rfl, rfl⟩

/-- C1, amended: re-registering a provider under an identity already
present replaces the registry entry (lookups now resolve to the newest
registration's token), but the previous registration's six event
subscriptions are NOT revoked: the old provider's registration stays fully
subscribed and its message emissions are still dispatched to the service's
handler exactly as before the replacement. -/
theorem c1_reregister_replaces_entry_but_keeps_old_subscriptions
    (s : QueryService) (p : String) (h : s.freshIds) :
    mapGet ((s.registerProvider p).1.registerProvider p).1.queryProviders p
        = some (s.nextRegId + 1) ∧
      ((s.registerProvider p).1.registerProvider p).1.findRegistration
          s.nextRegId
        = some (Registration.fresh s.nextRegId p) ∧
      (∀ cid msgs,
        ((s.registerProvider p).1.registerProvider p).1.emitMessageFrom
            s.nextRegId cid msgs
          = ((s.registerProvider p).1.registerProvider p).1.onMessage cid msgs) := by
  have hfind := reg2_find s p h
  refine ⟨?_, hfind, ?_⟩
  · rw [reg2_providers]
    exact mapGet_mapSet_self _ _ _
  · intro cid msgs
    unfold QueryService.emitMessageFrom QueryService.findRegistration
    rw [hfind]
    simp [Registration.fresh]

/-- Witness for
`c1_reregister_replaces_entry_but_keeps_old_subscriptions` on the empty
service. -/
theorem c1_reregister_keeps_old_subscriptions_witness :
    mapGet ((({} : QueryService).registerProvider "p").1.registerProvider
          "p").1.queryProviders "p"
        = some 1 ∧
      ((({} : QueryService).registerProvider "p").1.registerProvider
            "p").1.findRegistration 0
        = some (Registration.fresh 0 "p") ∧
      (∀ cid msgs,
        ((({} : QueryService).registerProvider "p").1.registerProvider
              "p").1.emitMessageFrom 0 cid msgs
          = ((({} : QueryService).registerProvider "p").1.registerProvider
              "p").1.onMessage cid msgs) :=
  c1_reregister_replaces_entry_but_keeps_old_subscriptions
    ({} : QueryService) "p" (by intro r hr; simp at hr)

theorem dispose_branch_regId (r : Registration) (n : Nat) :
    (if r.regId = n then Registration.revoke r else r).regId = r.regId := by
  split <;> rfl

/-- C10: after re-registering identity `p`, invoking the revocation handle
returned by the FIRST registration deletes whatever entry is currently
stored under `p` — i.e. the newer provider's registry entry — while
revoking only the old registration's six subscriptions; the newer
registration stays fully subscribed. -/
theorem c10_dispose_old_handle_removes_new_entry (s : QueryService)
    (p : String) (h : s.freshIds) :
    mapGet ((((s.registerProvider p).1.registerProvider p).1.disposeRegistration
          s.nextRegId).queryProviders) p
        = none ∧
      (((s.registerProvider p).1.registerProvider p).1.disposeRegistration
          s.nextRegId).findRegistration s.nextRegId
        = some (Registration.revoke (Registration.fresh s.nextRegId p)) ∧
      (((s.registerProvider p).1.registerProvider p).1.disposeRegistration
          s.nextRegId).findRegistration (s.nextRegId + 1)
        = some (Registration.fresh (s.nextRegId + 1) p) := by
  have hfind := reg2_find s p h
  unfold QueryService.disposeRegistration
  unfold QueryService.findRegistration at hfind
  rw [hfind]
  refine ⟨?_, ?_, ?_⟩
  · exact mapGet_mapDelete_self _ _
  · unfold QueryService.findRegistration
    rw [reg2_registrations]
    rw [List.map_append]
    rw [find_skip]
    · simp [List.find?, Registration.fresh, Registration.revoke]
    · intro x hx
      obtain ⟨r, hr, hfr⟩ := List.mem_map.mp hx
      rw [← hfr, dispose_branch_regId]
      exact decide_eq_false_iff_not.mpr (Nat.ne_of_lt (h r hr))
  · unfold QueryService.findRegistration
    rw [reg2_registrations]
    rw [List.map_append]
    rw [find_skip]
    · simp [List.find?, Registration.fresh, Registration.revoke]
    · intro x hx
      obtain ⟨r, hr, hfr⟩ := List.mem_map.mp hx
      rw [← hfr, dispose_branch_regId]
      exact decide_eq_false_iff_not.mpr
        (Nat.ne_of_lt (Nat.lt_succ_of_lt (h r hr)))

/-- Witness for `c10_dispose_old_handle_removes_new_entry` on the empty
service. -/
theorem c10_dispose_old_handle_removes_new_entry_witness :
    mapGet ((((({} : QueryService).registerProvider "p").1.registerProvider
          "p").1.disposeRegistration 0).queryProviders) "p"
        = none ∧
      ((((({} : QueryService)).registerProvider "p").1.registerProvider
          "p").1.disposeRegistration 0).findRegistration 0
        = some (Registration.revoke (Registration.fresh 0 "p")) ∧
      ((((({} : QueryService)).registerProvider "p").1.registerProvider
          "p").1.disposeRegistration 0).findRegistration 1
        = some (Registration.fresh 1 "p") :=
  c10_dispose_old_handle_removes_new_entry ({} : QueryService) "p"
    (by intro r hr; simp at hr)

end QS
